import Mathlib

/-
Shallow embedding of the jai.ai ABAP analyzer.

Client side (src/analyzer.js): the React component state of `ABAPAnalyzer`
is modelled as an explicit record, and each handler (handleFileUpload,
toggleAgent, runAnalysis, the fetchConfig effect) as a pure transition on
that record.  The outcome of the single network call made by runAnalysis is
passed in as data, together with a boolean recording whether the call was
issued at all.

Server side (src/server.js): the GET /api/config handler is a pure function
from the process environment to the JSON object it sends; a JS `undefined`
field, which res.json drops from the serialized object, is modelled as
`none`.
-/

/-- Model of JS `String.prototype.endsWith` on ordinary strings:
the character sequence of the argument is a suffix of the receiver. -/
def jsEndsWith (s pat : String) : Bool :=
  pat.data.isSuffixOf s.data

/-- JS truthiness of a possibly-undefined string value:
`undefined` and the empty string are falsy, every other string is truthy. -/
def jsTruthy : Option String → Bool
  | none => false
  | some s => s != ""

/-- JS `a || b` on possibly-undefined string values: `b` when `a` is falsy. -/
def jsOr (a b : Option String) : Option String :=
  if jsTruthy a then a else b

/-- JS `v || d` where the result is used as a plain string, as in
`config.apiKey || ''` in fetchConfig (src/analyzer.js lines 40-43). -/
def jsOrString (v : Option String) (d : String) : String :=
  match v with
  | none => d
  | some s => if s = "" then d else s

/-- An uploaded file as the client handlers see it; only the name is
inspected by the code the claims are about. -/
structure UploadedFile where
  name : String
deriving DecidableEq

/-- The `analysisSettings` state object (src/analyzer.js lines 9-16). -/
structure AnalysisSettings where
  agents : List String
  model : String
  outputFormat : String
  apiKey : String
  provider : String
  apiBaseUrl : String
deriving DecidableEq

/-- Initial value of `analysisSettings` (src/analyzer.js lines 9-16). -/
def initialSettings : AnalysisSettings :=
  { agents := ["functionality", "technical", "logic", "context"]
    model := "claude-3-7-sonnet-20250219"
    outputFormat := "json"
    apiKey := ""
    provider := "anthropic"
    apiBaseUrl := "" }

/-- The component state of `ABAPAnalyzer` relevant to the claims
(src/analyzer.js lines 8-19). `analysisResults` holds the parsed response
JSON, treated as an opaque value and modelled by a string. -/
structure ClientState where
  files : List UploadedFile
  analysisSettings : AnalysisSettings
  isAnalyzing : Bool
  analysisResults : Option String
  error : Option String
deriving DecidableEq

/-- Initial component state (src/analyzer.js lines 8-19). -/
def initialClientState : ClientState :=
  { files := []
    analysisSettings := initialSettings
    isAnalyzing := false
    analysisResults := none
    error := none }

/-- The file-name test of handleFileUpload (src/analyzer.js lines 69-71):
`file.name.endsWith('.abap') || file.name.endsWith('.ABAP')`. -/
def isAbapFileName (name : String) : Bool :=
  jsEndsWith name ".abap" || jsEndsWith name ".ABAP"

/-- handleFileUpload (src/analyzer.js lines 67-80): filters the selection
by `isAbapFileName`; when nothing passes, sets the extension error message
and returns, otherwise appends the kept files and clears the error. -/
def handleFileUpload (s : ClientState) (selectedFiles : List UploadedFile) :
    ClientState :=
  let abapFiles := selectedFiles.filter (fun f => isAbapFileName f.name)
  if abapFiles.length = 0 then
    { s with error := some "Please select ABAP files (.abap extension)" }
  else
    { s with files := s.files ++ abapFiles, error := none }

/-- toggleAgent (src/analyzer.js lines 88-95): if the id is in the agents
list, remove every occurrence of it, otherwise append it; all other
settings fields are spread through unchanged. -/
def toggleAgent (s : ClientState) (agentId : String) : ClientState :=
  { s with analysisSettings :=
      { s.analysisSettings with agents :=
          if agentId ∈ s.analysisSettings.agents then
            s.analysisSettings.agents.filter (fun id => id != agentId)
          else
            s.analysisSettings.agents ++ [agentId] } }

/-- The outcome of the single `fetch` performed by runAnalysis: the promise
rejects with a message (network failure), or an HTTP response arrives with
its `ok` flag (status in the 2xx range) and, when `ok` is read past, a body
whose JSON parse either yields a value or throws with a message. -/
inductive AnalyzeOutcome where
  | netError (message : String) : AnalyzeOutcome
  | httpResponse (ok : Bool) (body : Except String String) : AnalyzeOutcome

/-- True for the outcomes that reach the catch block of runAnalysis:
a rejected fetch, a non-2xx response, or a body that fails to parse. -/
def outcomeFails : AnalyzeOutcome → Bool
  | .netError _ => true
  | .httpResponse ok body =>
      !ok || (match body with | .error _ => true | .ok _ => false)

/-- The state right after runAnalysis passes its guards
(src/analyzer.js lines 109-110): `setIsAnalyzing(true); setError(null)`. -/
def runAnalysisMid (s : ClientState) : ClientState :=
  { s with isAnalyzing := true, error := none }

/-- runAnalysis (src/analyzer.js lines 98-137).  Returns the final state
and whether the network call was issued.  The guard order, the error
message texts, the constant `'Analysis failed'` thrown on a non-ok
response, the `Analysis failed: ` prefix added in the catch block, and the
`finally` clearing of the analyzing flag all follow the source. -/
def runAnalysis (s : ClientState) (outcome : AnalyzeOutcome) :
    ClientState × Bool :=
  if s.files.length = 0 then
    ({ s with error := some "Please upload at least one ABAP file" }, false)
  else if s.analysisSettings.apiKey = "" then
    ({ s with error := some "Please provide an API key in settings" }, false)
  else
    let mid := runAnalysisMid s
    let afterTry :=
      match outcome with
      | .netError message =>
          { mid with error := some ("Analysis failed: " ++ message) }
      | .httpResponse ok body =>
          if !ok then
            { mid with error := some ("Analysis failed: " ++ "Analysis failed") }
          else
            match body with
            | .ok results => { mid with analysisResults := some results }
            | .error message =>
                { mid with error := some ("Analysis failed: " ++ message) }
    ({ afterTry with isAnalyzing := false }, true)

/-- The render condition of the results viewer (src/analyzer.js line 384):
`{analysisResults && <AnalysisResultsViewer .../>}`. -/
def resultsDisplayed (s : ClientState) : Bool :=
  s.analysisResults.isSome

/-- The render condition of the error banner (src/analyzer.js line 376):
`{error && ...}`. -/
def errorDisplayed (s : ClientState) : Bool :=
  s.error.isSome

/-- The JSON object sent by GET /api/config, field by field; `none` stands
for a JS `undefined` value, which res.json omits from the serialized
object. -/
structure ConfigResponse where
  apiKey : Option String
  apiProvider : Option String
  modelName : Option String
  apiBaseUrl : Option String
deriving DecidableEq

/-- The process environment variables read by the config endpoint;
`none` is an unset variable. -/
structure Env where
  API_KEY : Option String
  OPENAI_API_KEY : Option String
  ANTHROPIC_API_KEY : Option String
  API_PROVIDER : Option String
  MODEL_NAME : Option String
  API_BASE_URL : Option String
deriving DecidableEq

/-- The GET /api/config handler (src/server.js lines 4-12): each field is
the JS `||` chain written in the source. -/
def getApiConfig (env : Env) : ConfigResponse :=
  { apiKey := jsOr env.API_KEY (jsOr env.OPENAI_API_KEY env.ANTHROPIC_API_KEY)
    apiProvider := jsOr env.API_PROVIDER (some "anthropic")
    modelName := jsOr env.MODEL_NAME (some "claude-3-7-sonnet-20250219")
    apiBaseUrl := jsOr env.API_BASE_URL (some "") }

/-- The settings update performed by fetchConfig on a successful config
fetch (src/analyzer.js lines 36-44): each field is `config.x || default`,
spread over the previous settings. -/
def fetchConfigApply (prev : AnalysisSettings) (config : ConfigResponse) :
    AnalysisSettings :=
  { prev with
    apiKey := jsOrString config.apiKey ""
    provider := jsOrString config.apiProvider "anthropic"
    model := jsOrString config.modelName "claude-3-7-sonnet-20250219"
    apiBaseUrl := jsOrString config.apiBaseUrl "" }

/-- Modelled from the spec: the extension test as the spec words it,
"extension `.abap` case-insensitive" — the name, ASCII-lowercased, ends
with `.abap`.  Written only to compare with `isAbapFileName`, the test the
code actually performs. -/
def specAbapCaseInsensitive (name : String) : Bool :=
  jsEndsWith (String.mk (name.data.map Char.toLower)) ".abap"

/-- An environment with every variable unset. -/
def emptyEnv : Env :=
  { API_KEY := none
    OPENAI_API_KEY := none
    ANTHROPIC_API_KEY := none
    API_PROVIDER := none
    MODEL_NAME := none
    API_BASE_URL := none }

/-- A sample matching upload. -/
def sampleFile : UploadedFile := { name := "demo.abap" }

/-- Settings with an API key configured. -/
def keyedSettings : AnalysisSettings := { initialSettings with apiKey := "sk-test" }

/-- A state with an API key but no uploaded file. -/
def stateNoFiles : ClientState :=
  { initialClientState with analysisSettings := keyedSettings }

/-- A state with one file and an API key: both runAnalysis guards pass. -/
def stateReady : ClientState :=
  { initialClientState with
    files := [sampleFile]
    analysisSettings := keyedSettings }

/-- A state with one file but no API key. -/
def stateNoKey : ClientState :=
  { initialClientState with files := [sampleFile] }

/-- A ready state that is already displaying results of an earlier run. -/
def stateWithResults : ClientState :=
  { stateReady with analysisResults := some "oldResults" }

/-- A config response whose apiProvider field is present but empty. -/
def presentEmptyProviderConfig : ConfigResponse :=
  { apiKey := some "sk-live"
    apiProvider := some ""
    modelName := some "claude-sample"
    apiBaseUrl := some "https://example.test" }

/-- C5: with zero uploaded files and a configured API key, submitting
analysis issues no network call, sets the no-file error message, and
leaves every other state field unchanged. -/
theorem runAnalysis_noFiles (s : ClientState) (o : AnalyzeOutcome)
    (hf : s.files = []) (hk : s.analysisSettings.apiKey ≠ "") :
    (runAnalysis s o).2 = false ∧
    (runAnalysis s o).1.error = some "Please upload at least one ABAP file" ∧
    (runAnalysis s o).1.files = s.files ∧
    (runAnalysis s o).1.analysisSettings = s.analysisSettings ∧
    (runAnalysis s o).1.isAnalyzing = s.isAnalyzing ∧
    (runAnalysis s o).1.analysisResults = s.analysisResults := by
  simp [runAnalysis, hf]

/-- Witness for C5: the no-file guard at a concrete state and outcome. -/
theorem runAnalysis_noFiles_witness :
    (runAnalysis stateNoFiles (.httpResponse true (.ok "r"))).2 = false ∧
    (runAnalysis stateNoFiles (.httpResponse true (.ok "r"))).1.error =
      some "Please upload at least one ABAP file" ∧
    (runAnalysis stateNoFiles (.httpResponse true (.ok "r"))).1.files =
      stateNoFiles.files ∧
    (runAnalysis stateNoFiles (.httpResponse true (.ok "r"))).1.analysisSettings =
      stateNoFiles.analysisSettings ∧
    (runAnalysis stateNoFiles (.httpResponse true (.ok "r"))).1.isAnalyzing =
      stateNoFiles.isAnalyzing ∧
    (runAnalysis stateNoFiles (.httpResponse true (.ok "r"))).1.analysisResults =
      stateNoFiles.analysisResults :=
  runAnalysis_noFiles stateNoFiles (.httpResponse true (.ok "r"))
    (by decide) (by decide)

/-- C6: with at least one uploaded file but no configured API key,
submitting analysis issues no network call, sets the missing-key error
message, and leaves every other state field unchanged. -/
theorem runAnalysis_noApiKey (s : ClientState) (o : AnalyzeOutcome)
    (hf : s.files ≠ []) (hk : s.analysisSettings.apiKey = "") :
    (runAnalysis s o).2 = false ∧
    (runAnalysis s o).1.error = some "Please provide an API key in settings" ∧
    (runAnalysis s o).1.files = s.files ∧
    (runAnalysis s o).1.analysisSettings = s.analysisSettings ∧
    (runAnalysis s o).1.isAnalyzing = s.isAnalyzing ∧
    (runAnalysis s o).1.analysisResults = s.analysisResults := by
  simp [runAnalysis, List.length_eq_zero, hf, hk]

/-- Witness for C6: the missing-key guard at a concrete state and outcome. -/
theorem runAnalysis_noApiKey_witness :
    (runAnalysis stateNoKey (.httpResponse true (.ok "r"))).2 = false ∧
    (runAnalysis stateNoKey (.httpResponse true (.ok "r"))).1.error =
      some "Please provide an API key in settings" ∧
    (runAnalysis stateNoKey (.httpResponse true (.ok "r"))).1.files =
      stateNoKey.files ∧
    (runAnalysis stateNoKey (.httpResponse true (.ok "r"))).1.analysisSettings =
      stateNoKey.analysisSettings ∧
    (runAnalysis stateNoKey (.httpResponse true (.ok "r"))).1.isAnalyzing =
      stateNoKey.isAnalyzing ∧
    (runAnalysis stateNoKey (.httpResponse true (.ok "r"))).1.analysisResults =
      stateNoKey.analysisResults :=
  runAnalysis_noApiKey stateNoKey (.httpResponse true (.ok "r"))
    (by decide) (by decide)

/-- C7: a 2xx response with a parseable JSON body ends runAnalysis in the
success state: the network call was issued, the parsed body is stored and
displayed as the analysis results, any prior error is cleared (so no error
banner shows), and the analyzing flag is back to false. -/
theorem runAnalysis_success (s : ClientState) (j : String)
    (hf : s.files ≠ []) (hk : s.analysisSettings.apiKey ≠ "") :
    (runAnalysis s (.httpResponse true (.ok j))).2 = true ∧
    (runAnalysis s (.httpResponse true (.ok j))).1.analysisResults = some j ∧
    resultsDisplayed (runAnalysis s (.httpResponse true (.ok j))).1 = true ∧
    (runAnalysis s (.httpResponse true (.ok j))).1.error = none ∧
    errorDisplayed (runAnalysis s (.httpResponse true (.ok j))).1 = false ∧
    (runAnalysis s (.httpResponse true (.ok j))).1.isAnalyzing = false := by
  simp [runAnalysis, runAnalysisMid, resultsDisplayed, errorDisplayed,
    List.length_eq_zero, hf, hk]

/-- Witness for C7: a successful analyze call at a concrete ready state. -/
theorem runAnalysis_success_witness :
    (runAnalysis stateReady (.httpResponse true (.ok "results"))).2 = true ∧
    (runAnalysis stateReady (.httpResponse true (.ok "results"))).1.analysisResults =
      some "results" ∧
    resultsDisplayed (runAnalysis stateReady (.httpResponse true (.ok "results"))).1 =
      true ∧
    (runAnalysis stateReady (.httpResponse true (.ok "results"))).1.error = none ∧
    errorDisplayed (runAnalysis stateReady (.httpResponse true (.ok "results"))).1 =
      false ∧
    (runAnalysis stateReady (.httpResponse true (.ok "results"))).1.isAnalyzing =
      false :=
  runAnalysis_success stateReady "results" (by decide) (by decide)

/-- Counterexample for C1: at a ready state already displaying the results
of an earlier run, a non-2xx analyze response leaves those stale results
stored and still displayed, and the error message is the fixed text
`Analysis failed: Analysis failed`, which does not carry the failure
detail (`failure detail`) of the response. -/
theorem runAnalysis_staleResults_cex :
    resultsDisplayed
      (runAnalysis stateWithResults
        (.httpResponse false (.ok "failure detail"))).1 = true ∧
    (runAnalysis stateWithResults
        (.httpResponse false (.ok "failure detail"))).1.analysisResults =
      some "oldResults" ∧
    (runAnalysis stateWithResults
        (.httpResponse false (.ok "failure detail"))).1.error =
      some "Analysis failed: Analysis failed" := by
  decide

/-- C1 amended: a non-2xx analyze response ends runAnalysis in the error
state, but with the fixed message `Analysis failed: Analysis failed`
(the failure detail of the response is not read), and the previously
stored analysis results are kept unchanged and stay displayed. -/
theorem runAnalysis_httpError (s : ClientState) (body : Except String String)
    (hf : s.files ≠ []) (hk : s.analysisSettings.apiKey ≠ "") :
    (runAnalysis s (.httpResponse false body)).2 = true ∧
    (runAnalysis s (.httpResponse false body)).1.error =
      some "Analysis failed: Analysis failed" ∧
    errorDisplayed (runAnalysis s (.httpResponse false body)).1 = true ∧
    (runAnalysis s (.httpResponse false body)).1.analysisResults =
      s.analysisResults ∧
    resultsDisplayed (runAnalysis s (.httpResponse false body)).1 =
      resultsDisplayed s ∧
    (runAnalysis s (.httpResponse false body)).1.isAnalyzing = false := by
  simp [runAnalysis, runAnalysisMid, resultsDisplayed, errorDisplayed,
    List.length_eq_zero, hf, hk]

/-- Witness for the amended C1 at a concrete state with prior results. -/
theorem runAnalysis_httpError_witness :
    (runAnalysis stateWithResults (.httpResponse false (.ok "d"))).2 = true ∧
    (runAnalysis stateWithResults (.httpResponse false (.ok "d"))).1.error =
      some "Analysis failed: Analysis failed" ∧
    errorDisplayed
      (runAnalysis stateWithResults (.httpResponse false (.ok "d"))).1 = true ∧
    (runAnalysis stateWithResults
        (.httpResponse false (.ok "d"))).1.analysisResults =
      stateWithResults.analysisResults ∧
    resultsDisplayed
      (runAnalysis stateWithResults (.httpResponse false (.ok "d"))).1 =
      resultsDisplayed stateWithResults ∧
    (runAnalysis stateWithResults
        (.httpResponse false (.ok "d"))).1.isAnalyzing = false :=
  runAnalysis_httpError stateWithResults (.ok "d") (by decide) (by decide)

/-- C8: the controller state machine of runAnalysis.  Starting from a
non-analyzing state: when both guards pass, the code first enters the
analyzing state (`runAnalysisMid`, the intermediate state runAnalysis
routes through) and issues the call; a 2xx response with parseable JSON
ends with results stored and no error (success); a network failure,
non-2xx response or JSON parse failure ends with an error message set
(error).  In every case — guards passing or not, any outcome — the
analyzing flag is false after runAnalysis completes. -/
theorem runAnalysis_stateMachine (s : ClientState) (o : AnalyzeOutcome)
    (hidle : s.isAnalyzing = false) :
    ((s.files ≠ [] ∧ s.analysisSettings.apiKey ≠ "") →
       (runAnalysisMid s).isAnalyzing = true ∧
       (runAnalysis s o).2 = true ∧
       (∀ j, o = .httpResponse true (.ok j) →
          (runAnalysis s o).1.error = none ∧
          (runAnalysis s o).1.analysisResults = some j) ∧
       (outcomeFails o = true →
          ∃ m, (runAnalysis s o).1.error = some m ∧
            (runAnalysis s o).1.analysisResults = s.analysisResults)) ∧
    (runAnalysis s o).1.isAnalyzing = false := by
  by_cases hf : s.files = []
  · constructor
    · rintro ⟨hf2, -⟩
      exact absurd hf hf2
    · simp [runAnalysis, hf, hidle]
  · by_cases hk : s.analysisSettings.apiKey = ""
    · constructor
      · rintro ⟨-, hk2⟩
        exact absurd hk hk2
      · simp [runAnalysis, List.length_eq_zero, hf, hk, hidle]
    · constructor
      · rintro ⟨-, -⟩
        refine ⟨rfl, ?_, ?_, ?_⟩
        · cases o with
          | netError m =>
              simp [runAnalysis, List.length_eq_zero, hf, hk]
          | httpResponse ok body =>
              cases ok <;> cases body <;>
                simp [runAnalysis, List.length_eq_zero, hf, hk]
        · rintro j rfl
          simp [runAnalysis, runAnalysisMid, List.length_eq_zero, hf, hk]
        · intro hfail
          cases o with
          | netError m =>
              exact ⟨"Analysis failed: " ++ m, by
                simp [runAnalysis, runAnalysisMid, List.length_eq_zero, hf, hk]⟩
          | httpResponse ok body =>
              cases ok with
              | false =>
                  exact ⟨"Analysis failed: " ++ "Analysis failed", by
                    simp [runAnalysis, runAnalysisMid, List.length_eq_zero,
                      hf, hk]⟩
              | true =>
                  cases body with
                  | ok j => simp [outcomeFails] at hfail
                  | error m =>
                      exact ⟨"Analysis failed: " ++ m, by
                        simp [runAnalysis, runAnalysisMid,
                          List.length_eq_zero, hf, hk]⟩
      · cases o with
        | netError m =>
            simp [runAnalysis, List.length_eq_zero, hf, hk]
        | httpResponse ok body =>
            cases ok <;> cases body <;>
              simp [runAnalysis, List.length_eq_zero, hf, hk]

/-- Witness for C8: concrete instances of the state machine transitions,
obtained from the theorem at a ready state. -/
theorem runAnalysis_stateMachine_witness :
    (runAnalysis stateReady (.httpResponse true (.ok "r"))).1.isAnalyzing =
      false ∧
    (runAnalysisMid stateReady).isAnalyzing = true ∧
    (runAnalysis stateReady (.httpResponse true (.ok "r"))).1.error = none ∧
    (runAnalysis stateReady
        (.httpResponse true (.ok "r"))).1.analysisResults = some "r" := by
  refine ⟨(runAnalysis_stateMachine stateReady (.httpResponse true (.ok "r"))
    rfl).2, ?_, ?_, ?_⟩
  · exact ((runAnalysis_stateMachine stateReady (.httpResponse true (.ok "r"))
      rfl).1 ⟨by decide, by decide⟩).1
  · exact (((runAnalysis_stateMachine stateReady (.httpResponse true (.ok "r"))
      rfl).1 ⟨by decide, by decide⟩).2.2.1 "r" rfl).1
  · exact (((runAnalysis_stateMachine stateReady (.httpResponse true (.ok "r"))
      rfl).1 ⟨by decide, by decide⟩).2.2.1 "r" rfl).2

/-- Counterexample for C2: with every environment variable unset, the
config response carries no apiKey field at all — the `||` chain for the
key has no literal default, so `undefined` is serialized away and the
object has three fields, not four.  Moreover, an API_KEY that is present
but empty does not win: the chain skips every falsy value, so the response
takes the key from OPENAI_API_KEY instead. -/
theorem getApiConfig_noKeyDefault_cex :
    (getApiConfig emptyEnv).apiKey = none ∧
    (getApiConfig emptyEnv).apiProvider = some "anthropic" ∧
    (getApiConfig emptyEnv).modelName = some "claude-3-7-sonnet-20250219" ∧
    (getApiConfig emptyEnv).apiBaseUrl = some "" ∧
    (getApiConfig { emptyEnv with
        API_KEY := some ""
        OPENAI_API_KEY := some "second-key" }).apiKey = some "second-key" := by
  decide

/-- C2 amended: GET /api/config returns apiKey equal to the first of
API_KEY, OPENAI_API_KEY, ANTHROPIC_API_KEY that is set to a non-empty
string; when none is, apiKey is the raw value of ANTHROPIC_API_KEY, hence
omitted from the JSON when that variable is unset — no default is
substituted for the key.  apiProvider, modelName and apiBaseUrl get their
documented defaults whenever the variable is unset or empty (empty counts
as absent, by JS truthiness). -/
theorem getApiConfig_fields (env : Env) :
    (∀ k, env.API_KEY = some k → k ≠ "" →
       (getApiConfig env).apiKey = some k) ∧
    ((env.API_KEY = none ∨ env.API_KEY = some "") →
       ∀ k, env.OPENAI_API_KEY = some k → k ≠ "" →
         (getApiConfig env).apiKey = some k) ∧
    ((env.API_KEY = none ∨ env.API_KEY = some "") →
       (env.OPENAI_API_KEY = none ∨ env.OPENAI_API_KEY = some "") →
       (getApiConfig env).apiKey = env.ANTHROPIC_API_KEY) ∧
    ((getApiConfig env).apiProvider =
       if jsTruthy env.API_PROVIDER then env.API_PROVIDER
       else some "anthropic") ∧
    ((getApiConfig env).modelName =
       if jsTruthy env.MODEL_NAME then env.MODEL_NAME
       else some "claude-3-7-sonnet-20250219") ∧
    ((getApiConfig env).apiBaseUrl =
       if jsTruthy env.API_BASE_URL then env.API_BASE_URL else some "") := by
  refine ⟨?_, ?_, ?_, ?_, ?_, ?_⟩
  · intro k hk hne
    simp [getApiConfig, jsOr, jsTruthy, hk, hne]
  · rintro (h1 | h1) k hk hne <;>
      simp [getApiConfig, jsOr, jsTruthy, h1, hk, hne]
  · rintro (h1 | h1) (h2 | h2) <;>
      simp [getApiConfig, jsOr, jsTruthy, h1, h2]
  · simp [getApiConfig, jsOr]
  · simp [getApiConfig, jsOr]
  · simp [getApiConfig, jsOr]

/-- Witness for the amended C2: a concrete environment where API_KEY is
empty, OPENAI_API_KEY is set, and the model variable is unset. -/
theorem getApiConfig_fields_witness :
    (getApiConfig
      { API_KEY := some ""
        OPENAI_API_KEY := some "oai-key"
        ANTHROPIC_API_KEY := none
        API_PROVIDER := some "openai"
        MODEL_NAME := none
        API_BASE_URL := some "" }).apiKey = some "oai-key" ∧
    (getApiConfig emptyEnv).apiKey = none := by
  constructor
  · exact (getApiConfig_fields _).2.1 (Or.inr rfl) "oai-key" rfl (by decide)
  · exact ((getApiConfig_fields emptyEnv).2.2.1 (Or.inl rfl)
      (Or.inl rfl)).trans rfl

/-- Counterexample for C4: a config response whose apiProvider field is
present with value `""` is not taken as-is — fetchConfig replaces it with
the default `anthropic`, because `config.apiProvider || 'anthropic'`
treats every falsy value, including a present empty string, as absent. -/
theorem fetchConfigApply_presentField_cex :
    presentEmptyProviderConfig.apiProvider = some "" ∧
    (fetchConfigApply initialSettings presentEmptyProviderConfig).provider =
      "anthropic" ∧
    (fetchConfigApply initialSettings presentEmptyProviderConfig).provider ≠
      "" := by
  decide

/-- C4 amended: fetchConfig sets provider, model, apiKey and apiBaseUrl
from the response JSON, with the defaults (`anthropic`, the dated model
identifier, empty strings) applied whenever a field is absent or is the
empty string (JS falsiness) — a present non-empty field is taken as-is —
and leaves the agents and outputFormat settings unchanged. -/
theorem fetchConfigApply_fields (prev : AnalysisSettings)
    (config : ConfigResponse) :
    (∀ v, config.apiKey = some v → v ≠ "" →
       (fetchConfigApply prev config).apiKey = v) ∧
    ((config.apiKey = none ∨ config.apiKey = some "") →
       (fetchConfigApply prev config).apiKey = "") ∧
    (∀ v, config.apiProvider = some v → v ≠ "" →
       (fetchConfigApply prev config).provider = v) ∧
    ((config.apiProvider = none ∨ config.apiProvider = some "") →
       (fetchConfigApply prev config).provider = "anthropic") ∧
    (∀ v, config.modelName = some v → v ≠ "" →
       (fetchConfigApply prev config).model = v) ∧
    ((config.modelName = none ∨ config.modelName = some "") →
       (fetchConfigApply prev config).model =
         "claude-3-7-sonnet-20250219") ∧
    (∀ v, config.apiBaseUrl = some v → v ≠ "" →
       (fetchConfigApply prev config).apiBaseUrl = v) ∧
    ((config.apiBaseUrl = none ∨ config.apiBaseUrl = some "") →
       (fetchConfigApply prev config).apiBaseUrl = "") ∧
    (fetchConfigApply prev config).agents = prev.agents ∧
    (fetchConfigApply prev config).outputFormat = prev.outputFormat := by
  refine ⟨?_, ?_, ?_, ?_, ?_, ?_, ?_, ?_, rfl, rfl⟩ <;>
    first
      | (intro v hv hne
         simp [fetchConfigApply, jsOrString, hv, hne])
      | (rintro (h | h) <;> simp [fetchConfigApply, jsOrString, h])

/-- Witness for the amended C4: a present non-empty apiKey is taken as-is
while a present empty apiProvider falls back to the default. -/
theorem fetchConfigApply_fields_witness :
    (fetchConfigApply initialSettings presentEmptyProviderConfig).apiKey =
      "sk-live" ∧
    (fetchConfigApply initialSettings presentEmptyProviderConfig).provider =
      "anthropic" ∧
    (fetchConfigApply initialSettings presentEmptyProviderConfig).agents =
      initialSettings.agents := by
  refine ⟨?_, ?_, ?_⟩
  · exact (fetchConfigApply_fields initialSettings
      presentEmptyProviderConfig).1 "sk-live" rfl (by decide)
  · exact (fetchConfigApply_fields initialSettings
      presentEmptyProviderConfig).2.2.2.1 (Or.inr rfl)
  · exact (fetchConfigApply_fields initialSettings
      presentEmptyProviderConfig).2.2.2.2.2.2.2.2.1

/-- Counterexample for C3: `report.Abap` matches the `.abap` extension
case-insensitively (the spec reading), yet handleFileUpload excludes it —
the code tests only the two exact spellings `.abap` and `.ABAP` — and,
the selection containing nothing else, reports the extension error. -/
theorem handleFileUpload_caseInsensitive_cex :
    specAbapCaseInsensitive "report.Abap" = true ∧
    isAbapFileName "report.Abap" = false ∧
    (handleFileUpload initialClientState [{ name := "report.Abap" }]).files =
      [] ∧
    (handleFileUpload initialClientState [{ name := "report.Abap" }]).error =
      some "Please select ABAP files (.abap extension)" := by
  decide

/-- C3 amended: handleFileUpload keeps exactly the selected files whose
name ends with `.abap` or `.ABAP` (the two exact spellings, not arbitrary
case mixes), excludes the rest, and shows the extension error message when
no file matches. -/
theorem handleFileUpload_keepsAbap (s : ClientState)
    (selectedFiles : List UploadedFile) :
    (selectedFiles.filter (fun f => isAbapFileName f.name) = [] →
       (handleFileUpload s selectedFiles).files = s.files ∧
       (handleFileUpload s selectedFiles).error =
         some "Please select ABAP files (.abap extension)") ∧
    (selectedFiles.filter (fun f => isAbapFileName f.name) ≠ [] →
       (handleFileUpload s selectedFiles).files =
         s.files ++ selectedFiles.filter (fun f => isAbapFileName f.name) ∧
       (handleFileUpload s selectedFiles).error = none ∧
       ∀ f, f ∈ (handleFileUpload s selectedFiles).files ↔
         (f ∈ s.files ∨
           (f ∈ selectedFiles ∧ isAbapFileName f.name = true))) := by
  constructor
  · intro h
    simp [handleFileUpload, h]
  · intro h
    refine ⟨?_, ?_, ?_⟩
    · simp [handleFileUpload, List.length_eq_zero, h]
    · simp [handleFileUpload, List.length_eq_zero, h]
    · intro f
      simp [handleFileUpload, List.length_eq_zero, h, List.mem_append,
        List.mem_filter]

/-- Witness for the amended C3: a non-matching selection is dropped with
the error shown; a mixed selection keeps exactly its `.ABAP` member. -/
theorem handleFileUpload_keepsAbap_witness :
    (handleFileUpload initialClientState [{ name := "a.txt" }]).files =
      initialClientState.files ∧
    (handleFileUpload initialClientState [{ name := "a.txt" }]).error =
      some "Please select ABAP files (.abap extension)" ∧
    (handleFileUpload stateReady
        [{ name := "b.ABAP" }, { name := "c.txt" }]).files =
      stateReady.files ++ [{ name := "b.ABAP" }] := by
  have h1 := (handleFileUpload_keepsAbap initialClientState
    [{ name := "a.txt" }]).1 (by decide)
  have h2 := (handleFileUpload_keepsAbap stateReady
    [{ name := "b.ABAP" }, { name := "c.txt" }]).2 (by decide)
  exact ⟨h1.1, h1.2, h2.1.trans (by decide)⟩

/-- C9: when no selected file carries the `.abap` or `.ABAP` suffix,
handleFileUpload leaves the existing file list and every other state field
unchanged, only setting the error message; when at least one file matches,
the kept files are appended after the existing list, preserving the
previously uploaded files and their order. -/
theorem handleFileUpload_frame (s : ClientState)
    (selectedFiles : List UploadedFile) :
    ((∀ f ∈ selectedFiles, isAbapFileName f.name = false) →
       (handleFileUpload s selectedFiles).files = s.files ∧
       (handleFileUpload s selectedFiles).analysisSettings =
         s.analysisSettings ∧
       (handleFileUpload s selectedFiles).isAnalyzing = s.isAnalyzing ∧
       (handleFileUpload s selectedFiles).analysisResults =
         s.analysisResults ∧
       (handleFileUpload s selectedFiles).error =
         some "Please select ABAP files (.abap extension)") ∧
    ((∃ f ∈ selectedFiles, isAbapFileName f.name = true) →
       (handleFileUpload s selectedFiles).files =
         s.files ++ selectedFiles.filter (fun f => isAbapFileName f.name) ∧
       (handleFileUpload s selectedFiles).files.take s.files.length =
         s.files) := by
  constructor
  · intro h
    have hnil : selectedFiles.filter (fun f => isAbapFileName f.name) = [] := by
      rw [List.filter_eq_nil_iff]
      intro f hf
      simp [h f hf]
    simp [handleFileUpload, hnil]
  · rintro ⟨f, hf, hab⟩
    have hne : selectedFiles.filter (fun f => isAbapFileName f.name) ≠ [] := by
      intro hnil
      have := List.filter_eq_nil_iff.mp hnil f hf
      simp [hab] at this
    constructor
    · simp [handleFileUpload, List.length_eq_zero, hne]
    · simp [handleFileUpload, List.length_eq_zero, hne,
        List.take_left]

/-- Witness for C9: a non-matching selection leaves a state with stored
results untouched apart from the error; a matching one appends. -/
theorem handleFileUpload_frame_witness :
    (handleFileUpload stateWithResults [{ name := "notes.txt" }]).files =
      stateWithResults.files ∧
    (handleFileUpload stateWithResults
        [{ name := "notes.txt" }]).analysisResults =
      stateWithResults.analysisResults ∧
    (handleFileUpload stateReady [{ name := "x.abap" }]).files =
      stateReady.files ++ [{ name := "x.abap" }] := by
  have h1 := (handleFileUpload_frame stateWithResults
    [{ name := "notes.txt" }]).1 (by decide)
  have h2 := (handleFileUpload_frame stateReady [{ name := "x.abap" }]).2
    ⟨{ name := "x.abap" }, by decide, by decide⟩
  exact ⟨h1.1, h1.2.2.2.1, h2.1.trans (by decide)⟩

/-- C10: toggleAgent flips the membership of exactly the given agent id in
the selected-agents list, leaves every other id's membership and every
other settings and state field unchanged, and toggling the same id twice
restores the original membership of every agent. -/
theorem toggleAgent_membership (s : ClientState) (agentId : String) :
    (agentId ∈ (toggleAgent s agentId).analysisSettings.agents ↔
       agentId ∉ s.analysisSettings.agents) ∧
    (∀ x, x ≠ agentId →
       (x ∈ (toggleAgent s agentId).analysisSettings.agents ↔
        x ∈ s.analysisSettings.agents)) ∧
    (toggleAgent s agentId).files = s.files ∧
    (toggleAgent s agentId).isAnalyzing = s.isAnalyzing ∧
    (toggleAgent s agentId).analysisResults = s.analysisResults ∧
    (toggleAgent s agentId).error = s.error ∧
    (toggleAgent s agentId).analysisSettings.model =
      s.analysisSettings.model ∧
    (toggleAgent s agentId).analysisSettings.outputFormat =
      s.analysisSettings.outputFormat ∧
    (toggleAgent s agentId).analysisSettings.apiKey =
      s.analysisSettings.apiKey ∧
    (toggleAgent s agentId).analysisSettings.provider =
      s.analysisSettings.provider ∧
    (toggleAgent s agentId).analysisSettings.apiBaseUrl =
      s.analysisSettings.apiBaseUrl ∧
    (∀ x, x ∈ (toggleAgent (toggleAgent s agentId)
        agentId).analysisSettings.agents ↔
       x ∈ s.analysisSettings.agents) := by
  by_cases h : agentId ∈ s.analysisSettings.agents
  · refine ⟨?_, ?_, rfl, rfl, rfl, rfl, ?_, ?_, ?_, ?_, ?_, ?_⟩
    · simp [toggleAgent, h, List.mem_filter]
    · intro x hx
      simp [toggleAgent, h, List.mem_filter, hx]
    · simp [toggleAgent]
    · simp [toggleAgent]
    · simp [toggleAgent]
    · simp [toggleAgent]
    · simp [toggleAgent]
    · intro x
      by_cases hx : x = agentId
      · subst hx
        simp [toggleAgent, h, List.mem_filter, List.mem_append]
      · simp [toggleAgent, h, List.mem_filter, List.mem_append, hx]
  · refine ⟨?_, ?_, rfl, rfl, rfl, rfl, ?_, ?_, ?_, ?_, ?_, ?_⟩
    · simp [toggleAgent, h, List.mem_append]
    · intro x hx
      simp [toggleAgent, h, List.mem_append, hx]
    · simp [toggleAgent]
    · simp [toggleAgent]
    · simp [toggleAgent]
    · simp [toggleAgent]
    · simp [toggleAgent]
    · intro x
      by_cases hx : x = agentId
      · subst hx
        simp [toggleAgent, h, List.mem_filter, List.mem_append]
      · simp [toggleAgent, h, List.mem_filter, List.mem_append, hx]

/-- Witness for C10: toggling `logic` (initially selected) removes it and
leaves `context` selected; toggling `security` (initially unselected)
twice leaves it unselected as before. -/
theorem toggleAgent_membership_witness :
    ("logic" ∈ (toggleAgent initialClientState
        "logic").analysisSettings.agents ↔
       "logic" ∉ initialClientState.analysisSettings.agents) ∧
    ("context" ∈ (toggleAgent initialClientState
        "logic").analysisSettings.agents ↔
       "context" ∈ initialClientState.analysisSettings.agents) ∧
    ("security" ∈ (toggleAgent (toggleAgent initialClientState "security")
        "security").analysisSettings.agents ↔
       "security" ∈ initialClientState.analysisSettings.agents) := by
  refine ⟨(toggleAgent_membership initialClientState "logic").1, ?_, ?_⟩
  · exact (toggleAgent_membership initialClientState "logic").2.1 "context"
      (by decide)
  · exact (toggleAgent_membership initialClientState
      "security").2.2.2.2.2.2.2.2.2.2.2 "security"
